import Mathlib

/-! Verification development for the bioluminescence detection model in
`backend/api/bioluminescence_model.py`.

Modelling conventions:
* Python floats are modelled as real numbers (`ℝ`).
* Python float division raises `ZeroDivisionError` on a zero divisor, so code
  containing an unguarded float division is modelled in `Except String`.
* Python `**` on a negative float base with a non-integral exponent produces a
  complex number, which makes the enclosing `max` comparison raise `TypeError`;
  `0.0 ** e` with `e < 0` raises `ZeroDivisionError`.  Both are surfaced as
  errors at the power operation.
* numpy scalar operations (`np.log`, numpy division, `np.percentile`,
  `np.clip`) do not raise (the source suppresses warnings); they are total.
* The normal draws of `_uncertainty_analysis` are abstracted as an explicit
  list of sampled 7-parameter vectors; the trial points and convergence flag of
  `scipy.optimize.minimize` are likewise abstracted as explicit parameters.
-/

namespace LuxBio

noncomputable section

/-- Gas constant `R = 8.314` (J/mol·K) from the source header. -/
def Rgas : ℝ := 8.314

/-- Sensor-specific constants: the source keeps them in the `k_sensor` dict
built by `ModelParameters.__post_init__` with exactly the keys `human`,
`drone`, `nvg`; no code path ever adds or removes keys, so a fixed record is a
faithful model of that dict. -/
structure KSensor where
  human : ℝ
  drone : ℝ
  nvg : ℝ

/-- Mirrors the `ModelParameters` dataclass, with its default field values. -/
structure ModelParameters where
  I0 : ℝ := 10.0
  A : ℝ := 0.015
  Ea : ℝ := 50000
  alpha0 : ℝ := 0.002
  alpha1 : ℝ := 0.018
  alpha2 : ℝ := 0.025
  alpha3 : ℝ := 0.032
  alpha4 : ℝ := 0.008
  beta : ℝ := 1.2
  kSensor : KSensor := ⟨0.001, 0.005, 0.0005⟩
  gamma : ℝ := 1.5

/-- The default parameter set `ModelParameters()`. -/
def defaultParams : ModelParameters := {}

/-- Dict lookup `k_sensor.get(sensor_type, k_sensor['drone'])`: unknown sensor
types fall back to the drone constant. -/
def kGet (ks : KSensor) (s : String) : ℝ :=
  if s = "human" then ks.human
  else if s = "drone" then ks.drone
  else if s = "nvg" then ks.nvg
  else ks.drone

/-- Python float division: raises `ZeroDivisionError` on a zero divisor. -/
def pydiv (x y : ℝ) : Except String ℝ :=
  if y = 0 then .error "ZeroDivisionError" else .ok (x / y)

/-- Python `**` for the float operands used in this code (see the header
comment): negative base with a non-integral exponent ends in a `TypeError`,
`0.0 ** e` with `e < 0` raises `ZeroDivisionError`, otherwise the real power. -/
def py_pow (x y : ℝ) : Except String ℝ :=
  if x < 0 then .error "TypeError"
  else if x = 0 ∧ y < 0 then .error "ZeroDivisionError"
  else .ok (x ^ y)

/-- numpy `np.clip(x, lo, hi)`. -/
def np_clip (x lo hi : ℝ) : ℝ := min (max x lo) hi

/-- `BioluminescenceModel.light_decay` (source lines 68-82):
`decay_rate = A * exp(-Ea / (R*T_k))`, `intensity = I0 * exp(-decay_rate*t)`,
returned as `max(intensity, 0.0)`.  The division `-Ea / (R * T_k)` is a Python
float division and raises when `T_k = 0`. -/
def light_decay (p : ModelParameters) (t T : ℝ) : Except String ℝ :=
  match pydiv (-p.Ea) (Rgas * (T + 273.15)) with
  | .error e => .error e
  | .ok q => .ok (max (p.I0 * Real.exp (-(p.A * Real.exp q) * t)) 0)

/-- The value `light_decay` returns when its division does not raise
(a derived abbreviation used to state theorems; see `light_decay_ok`). -/
def light_decay_value (p : ModelParameters) (t T : ℝ) : ℝ :=
  max (p.I0 * Real.exp (-(p.A * Real.exp ((-p.Ea) / (Rgas * (T + 273.15)))) * t)) 0

/-- `BioluminescenceModel.environmental_attenuation` (source lines 84-101):
`c = alpha0 + alpha1*Uw**beta + alpha2*P + alpha3*Hs + alpha4*P*Hs`, returned
as `max(c, 0.001)`. -/
def environmental_attenuation (p : ModelParameters) (Uw P Hs : ℝ) :
    Except String ℝ :=
  match py_pow Uw p.beta with
  | .error e => .error e
  | .ok w =>
      .ok (max (p.alpha0 + p.alpha1 * w + p.alpha2 * P + p.alpha3 * Hs +
        p.alpha4 * P * Hs) 0.001)

/-- The value `environmental_attenuation` returns when the power operation
does not raise (a derived abbreviation used to state theorems; see
`environmental_attenuation_ok`). -/
def attenuation_value (p : ModelParameters) (Uw P Hs : ℝ) : ℝ :=
  max (p.alpha0 + p.alpha1 * Uw ^ p.beta + p.alpha2 * P + p.alpha3 * Hs +
    p.alpha4 * P * Hs) 0.001

/-- `BioluminescenceModel.detection_threshold` (source lines 103-116):
`k_sensor.get(sensor_type, k_sensor['drone']) + gamma * I_ambient`, returned
as `max(threshold, 0.0001)`. -/
def detection_threshold (p : ModelParameters) (Iambient : ℝ) (sensor : String) :
    ℝ :=
  max (kGet p.kSensor sensor + p.gamma * Iambient) 0.0001

/-- `BioluminescenceModel.max_distance` (source lines 118-134): returns `0.0`
when `I_current <= I_threshold`, otherwise
`np.clip((1.0/c) * np.log(I_current/I_threshold), 0.0, 10000.0)`.  Both
divisions are Python float divisions. -/
def max_distance (Icurrent Ithreshold c : ℝ) : Except String ℝ :=
  if Icurrent ≤ Ithreshold then .ok 0
  else
    match pydiv 1 c with
    | .error e => .error e
    | .ok oneOverC =>
        match pydiv Icurrent Ithreshold with
        | .error e => .error e
        | .ok r => .ok (np_clip (oneOverC * Real.log r) 0 10000)

/-- The seven-parameter vector `{I0, A, Ea, alpha1, alpha2, alpha3, gamma}`:
the shape of one Monte Carlo draw of `_uncertainty_analysis` and of one
optimizer iterate of `calibrate_parameters`. -/
structure Params7 where
  I0 : ℝ
  A : ℝ
  Ea : ℝ
  alpha1 : ℝ
  alpha2 : ℝ
  alpha3 : ℝ
  gamma : ℝ

/-- Error-propagating transcription of the source's sequential loops that
build a list (`for ...: xs.append(f(...))`): the first raised exception
aborts the loop. -/
def exceptMap {α β ε : Type} (f : α → Except ε β) : List α → Except ε (List β)
  | [] => .ok []
  | a :: l =>
      match f a with
      | .error e => .error e
      | .ok b =>
          match exceptMap f l with
          | .error e => .error e
          | .ok bs => .ok (b :: bs)

/-- numpy `np.percentile(xs, q)` with the default linear interpolation:
sort, take `h = q/100 * (n-1)`, and interpolate between the floor and ceiling
ranks.  (The source always calls it on a list of 100 samples.) -/
def percentile (xs : List ℝ) (q : ℝ) : ℝ :=
  let s := List.insertionSort (· ≤ ·) xs
  let n := s.length
  if n = 0 then 0
  else
    let h := q / 100 * ((n : ℝ) - 1)
    let lo := s.getD (Int.toNat ⌊h⌋) 0
    let hi := s.getD (Int.toNat ⌈h⌉) 0
    lo + (h - (⌊h⌋ : ℝ)) * (hi - lo)

/-- One iteration of the `_uncertainty_analysis` sampling loop (source lines
221-255), for one drawn parameter vector `sp`.  The fresh `ModelParameters()`
created per sample keeps its default `alpha0`, `alpha4`, `beta` and `k_sensor`
(the dict-get fallback literal `0.005` equals the default drone constant).
The division by `8.314 * (water_temp + 273.15)` is a Python float division;
inside the guarded branch the numpy division and `np.log` are total. -/
def uncertainty_sample (sp : Params7)
    (activation_time water_temp wind_speed precipitation wave_height
      ambient_light : ℝ) (sensor_type : String) : Except String ℝ :=
  match pydiv (-sp.Ea) (8.314 * (water_temp + 273.15)) with
  | .error e => .error e
  | .ok q =>
      let Icurrent := sp.I0 * Real.exp (-(sp.A * Real.exp q) * activation_time)
      match py_pow wind_speed defaultParams.beta with
      | .error e => .error e
      | .ok w =>
          let c := defaultParams.alpha0 + sp.alpha1 * w +
            sp.alpha2 * precipitation + sp.alpha3 * wave_height +
            defaultParams.alpha4 * precipitation * wave_height
          let Ithreshold := kGet defaultParams.kSensor sensor_type +
            sp.gamma * ambient_light
          if Icurrent > Ithreshold ∧ c > 0 then
            .ok (np_clip ((1 / c) * Real.log (Icurrent / Ithreshold)) 0 10000)
          else .ok 0

/-- `BioluminescenceModel._uncertainty_analysis` (source lines 200-261): runs
the sampling loop (the 100 normal draws abstracted as the list `samples`) and
returns the 5th/50th/95th percentiles of the collected distances. -/
def uncertainty_analysis (samples : List Params7)
    (activation_time water_temp wind_speed precipitation wave_height
      ambient_light : ℝ) (sensor_type : String) : Except String (List ℝ) :=
  match exceptMap (fun sp => uncertainty_sample sp activation_time water_temp
      wind_speed precipitation wave_height ambient_light sensor_type)
      samples with
  | .error e => .error e
  | .ok distances =>
      .ok [percentile distances 5, percentile distances 50,
        percentile distances 95]

/-- `BioluminescenceModel._calculate_performance_score` (source lines
263-285).  The SNR division is guarded by `I_threshold > 0`. -/
def calculate_performance_score (Icurrent Ithreshold c distance : ℝ) : ℝ :=
  let snr := if Ithreshold > 0 then Icurrent / Ithreshold else 0
  let attenuationScore := max 0 (100 - c * 1000)
  let distanceScore := min 100 (distance / 10)
  np_clip (0.4 * min 100 (snr * 10) + 0.3 * attenuationScore +
    0.3 * distanceScore) 0 100

/-- `BioluminescenceModel._generate_failure_flags` (source lines 287-309):
four independent checks appended in order. -/
def generate_failure_flags (Icurrent Ithreshold c distance : ℝ) :
    List String :=
  (if Icurrent < Ithreshold then ["Low brightness"] else []) ++
  ((if c > 0.05 then ["Heavy attenuation"] else []) ++
  ((if distance < 50 then ["Very short range"] else []) ++
  (if Icurrent < 0.1 then ["Weak signal"] else [])))

/-- The dictionary returned by `predict` (source lines 187-198).  The three
`system_conditions` strings interpolate `I_current`, `c` and `I_threshold`
with fixed decimal formatting; float-to-decimal formatting is outside the
model, so the field carries the three underlying values. -/
structure PredictResult where
  distance : ℝ
  confidence_interval : List ℝ
  performance_score : ℝ
  system_conditions : List ℝ
  failure_flags : List String
  validation_status : String

/-- `BioluminescenceModel.predict` (source lines 136-198): composes
`light_decay`, `environmental_attenuation`, `detection_threshold`,
`max_distance`, `_uncertainty_analysis`, the performance score and the
failure flags.  The method body contains no `try`/`except`: any exception
raised by a step propagates to the caller. -/
def predict (p : ModelParameters) (samples : List Params7)
    (activation_time water_temp wind_speed precipitation wave_height
      ambient_light : ℝ) (sensor_type : String) :
    Except String PredictResult :=
  match light_decay p activation_time water_temp with
  | .error e => .error e
  | .ok Icurrent =>
      match environmental_attenuation p wind_speed precipitation wave_height with
      | .error e => .error e
      | .ok c =>
          let Ithreshold := detection_threshold p ambient_light sensor_type
          match max_distance Icurrent Ithreshold c with
          | .error e => .error e
          | .ok distance =>
              match uncertainty_analysis samples activation_time water_temp
                  wind_speed precipitation wave_height ambient_light
                  sensor_type with
              | .error e => .error e
              | .ok ci =>
                  .ok { distance := distance
                        confidence_interval := ci
                        performance_score := calculate_performance_score
                          Icurrent Ithreshold c distance
                        system_conditions := [Icurrent, c, Ithreshold]
                        failure_flags := generate_failure_flags Icurrent
                          Ithreshold c distance
                        validation_status := "Requires field verification" }

/-- One row of the calibration `field_data` table / one validation
observation: the columns read by `calibrate_parameters`'s objective function
(source lines 335-348). -/
structure FieldRow where
  actual_distance : ℝ
  activation_time : ℝ
  water_temp : ℝ
  wind_speed : ℝ
  precipitation : ℝ
  wave_height : ℝ
  ambient_light : ℝ
  sensor_type : String

/-- The dict appended to `calibration_history` (source lines 394-399); its
literal keys are recorded in `calibration_record_keys`. -/
structure CalibrationRecord where
  iteration : ℕ
  parameters : Params7
  error : ℝ
  success : Bool

/-- The keys of the history dict appended by `calibrate_parameters`
(source lines 394-399). -/
def calibration_record_keys : List String :=
  ["iteration", "parameters", "error", "success"]

/-- The mutable state of a `BioluminescenceModel` instance: `self.params`,
`self.calibration_history`, `self.validation_data` (source lines 57-66). -/
structure Model where
  params : ModelParameters
  calibration_history : List CalibrationRecord
  validation_data : List FieldRow

/-- A freshly constructed `BioluminescenceModel()` with default parameters. -/
def defaultModel : Model := ⟨defaultParams, [], []⟩

/-- `predict` as a method on the model state.  The transcription of the
method body (and of `_uncertainty_analysis`, which mutates only its local
`sampled_params` objects) contains no assignment to `self`, so the state
component is returned unchanged. -/
def model_predict (m : Model) (samples : List Params7)
    (activation_time water_temp wind_speed precipitation wave_height
      ambient_light : ℝ) (sensor_type : String) :
    Except String PredictResult × Model :=
  (predict m.params samples activation_time water_temp wind_speed
    precipitation wave_height ambient_light sensor_type, m)

/-- The message of the `ValueError` that sklearn's `mean_absolute_error`
raises on zero-length inputs. -/
def empty_data_error : String :=
  "ValueError: Found array with 0 sample(s) while a minimum of 1 is required"

/-- sklearn `mean_absolute_error(y_true, y_pred)` (external library, modelled
from its documented contract): the mean of the absolute errors; raises a
`ValueError` when given zero samples. -/
def mean_absolute_error (yTrue yPred : List ℝ) : Except String ℝ :=
  if yTrue.length = 0 then .error empty_data_error
  else
    .ok (((yTrue.zip yPred).map (fun ab => |ab.1 - ab.2|)).sum /
      (yTrue.length : ℝ))

/-- The seven assignments `self.params.<field> = params[i]` performed at the
top of the objective function (source lines 325-331) and again after
optimization (source lines 390-391). -/
def set_params (p : ModelParameters) (v : Params7) : ModelParameters :=
  { p with
    I0 := v.I0
    A := v.A
    Ea := v.Ea
    alpha1 := v.alpha1
    alpha2 := v.alpha2
    alpha3 := v.alpha3
    gamma := v.gamma }

/-- `objective_function` inside `calibrate_parameters` (source lines 323-349):
installs the candidate vector into the live parameters, runs `predict` on
every row, and returns the MAE against the observed distances.  Exceptions
propagate, leaving the mutated state behind (the error value carries the
state, as the Python object keeps its mutations when an exception unwinds). -/
def objective_function (field_data : List FieldRow) (rng : List Params7)
    (v : Params7) (m : Model) : Except (String × Model) (ℝ × Model) :=
  let m1 : Model := { m with params := set_params m.params v }
  match exceptMap (fun row =>
      match predict m1.params rng row.activation_time row.water_temp
          row.wind_speed row.precipitation row.wave_height row.ambient_light
          row.sensor_type with
      | .error e => .error e
      | .ok r => .ok r.distance) field_data with
  | .error e => .error (e, m1)
  | .ok preds =>
      match mean_absolute_error (field_data.map
          (fun row => row.actual_distance)) preds with
      | .error e => .error (e, m1)
      | .ok mae => .ok (mae, m1)

/-- Evaluation of the optimizer's trial points after the initial one,
threading the live model state through every objective call and returning the
final iterate with its objective value. -/
def run_trials (f : Params7 → Model → Except (String × Model) (ℝ × Model)) :
    List Params7 → Params7 → ℝ → Model →
      Except (String × Model) ((Params7 × ℝ) × Model)
  | [], x, fx, m => .ok ((x, fx), m)
  | t :: ts, _, _, m =>
      match f t m with
      | .error em => .error em
      | .ok (ft, m1) => run_trials f ts t ft m1

/-- Abstract model of `scipy.optimize.minimize` with `L-BFGS-B` (external
library): it first evaluates the objective at the initial point, then at a
sequence of trial points chosen by its (unmodelled) numerics — abstracted
here as the parameter `trials` — and returns the final iterate, its objective
value and a convergence flag (abstracted as the parameter `success`).
Exceptions raised by the objective propagate; the optimizer itself raises
nothing. -/
def scipy_minimize
    (f : Params7 → Model → Except (String × Model) (ℝ × Model))
    (x0 : Params7) (trials : List Params7) (success : Bool) (m : Model) :
    Except (String × Model) ((Params7 × ℝ × Bool) × Model) :=
  match f x0 m with
  | .error em => .error em
  | .ok (fx0, m0) =>
      match run_trials f trials x0 fx0 m0 with
      | .error em => .error em
      | .ok ((x, fx), m1) => .ok ((x, fx, success), m1)

/-- `BioluminescenceModel.calibrate_parameters` (source lines 311-401):
optimizes the seven-parameter subset starting from the current values,
installs the optimizer's result via `setattr` and appends one history dict
`{iteration, parameters, error, success}`. -/
def calibrate_parameters (m : Model) (field_data : List FieldRow)
    (trials : List Params7) (success : Bool) (rng : List Params7) :
    Except (String × Model) (Params7 × Model) :=
  let initial : Params7 := ⟨m.params.I0, m.params.A, m.params.Ea,
    m.params.alpha1, m.params.alpha2, m.params.alpha3, m.params.gamma⟩
  match scipy_minimize (objective_function field_data rng) initial trials
      success m with
  | .error em => .error em
  | .ok ((x, fval, succ), m1) =>
      .ok (x, { m1 with
        params := set_params m1.params x
        calibration_history := m1.calibration_history ++
          [⟨m1.calibration_history.length + 1, x, fval, succ⟩] })

/-- `BioluminescenceModel._retrain_from_validation_data` (source lines
416-430): guard on fewer than 10 buffered rows, calibrate on the buffer, then
clear it. -/
def retrain_from_validation_data (m : Model) (trials : List Params7)
    (success : Bool) (rng : List Params7) : Except (String × Model) Model :=
  if m.validation_data.length < 10 then .ok m
  else
    match calibrate_parameters m m.validation_data trials success rng with
    | .error em => .error em
    | .ok (_, m2) => .ok { m2 with validation_data := [] }

/-- `BioluminescenceModel.add_validation_data` (source lines 403-414):
append the observation, and retrain once the buffer holds at least 10 rows. -/
def add_validation_data (m : Model) (row : FieldRow) (trials : List Params7)
    (success : Bool) (rng : List Params7) : Except (String × Model) Model :=
  let m1 : Model := { m with validation_data := m.validation_data ++ [row] }
  if m1.validation_data.length ≥ 10 then
    retrain_from_validation_data m1 trials success rng
  else .ok m1

/-- Calling `add_validation_data` once per row, left to right (the
one-observation-at-a-time scenario of the spec). -/
def add_many (trials : List Params7) (success : Bool) (rng : List Params7) :
    Model → List FieldRow → Except (String × Model) Model
  | m, [] => .ok m
  | m, r :: rs =>
      match add_validation_data m r trials success rng with
      | .error em => .error em
      | .ok m1 => add_many trials success rng m1 rs

/-- A field row whose numeric entries keep the prediction pipeline free of
raising operations: the Kelvin temperature is nonzero and the wind speed is
nonnegative.  Every row inside the spec's §3 input domains satisfies this. -/
def validRow (r : FieldRow) : Prop :=
  r.water_temp + 273.15 ≠ 0 ∧ 0 ≤ r.wind_speed

/-- A concrete in-domain field observation (the spec's end-to-end scenario 1
conditions with a 100 m observed distance). -/
def exampleRow : FieldRow := ⟨100, 45, 8.5, 5.2, 2.4, 1.2, 0.002, "drone"⟩

/-- Unfolding lemma: `pydiv` with a nonzero divisor. -/
theorem pydiv_ok (x y : ℝ) (h : y ≠ 0) : pydiv x y = .ok (x / y) := by
  simp [pydiv, h]

/-- Unfolding lemma: `py_pow` on a nonnegative base (with a nonzero base or a
nonnegative exponent). -/
theorem py_pow_ok (x y : ℝ) (hx : 0 ≤ x) (h : x ≠ 0 ∨ 0 ≤ y) :
    py_pow x y = .ok (x ^ y) := by
  have h1 : ¬ x < 0 := not_lt.mpr hx
  have h2 : ¬ (x = 0 ∧ y < 0) := by
    rintro ⟨rfl, hy⟩
    rcases h with h | h
    · exact h rfl
    · exact absurd hy (not_lt.mpr h)
  simp [py_pow, h1, h2]

/-- `light_decay` returns normally whenever the Kelvin temperature is
nonzero. -/
theorem light_decay_ok (p : ModelParameters) (t T : ℝ)
    (h : T + 273.15 ≠ 0) :
    light_decay p t T = .ok (light_decay_value p t T) := by
  have hz : Rgas * (T + 273.15) ≠ 0 := mul_ne_zero (by norm_num [Rgas]) h
  unfold light_decay light_decay_value
  rw [pydiv_ok _ _ hz]

/-- `environmental_attenuation` returns normally for a nonnegative wind speed
(and nonnegative wind exponent when the wind speed is zero). -/
theorem environmental_attenuation_ok (p : ModelParameters) (Uw P Hs : ℝ)
    (hw : 0 ≤ Uw) (hb : Uw ≠ 0 ∨ 0 ≤ p.beta) :
    environmental_attenuation p Uw P Hs = .ok (attenuation_value p Uw P Hs) := by
  unfold environmental_attenuation attenuation_value
  rw [py_pow_ok _ _ hw hb]

/-- The attenuation value carries its floor. -/
theorem attenuation_value_ge (p : ModelParameters) (Uw P Hs : ℝ) :
    0.001 ≤ attenuation_value p Uw P Hs := by
  unfold attenuation_value
  exact le_max_right _ _

/-- The detection threshold carries its floor. -/
theorem detection_threshold_ge (p : ModelParameters) (a : ℝ) (s : String) :
    0.0001 ≤ detection_threshold p a s := by
  unfold detection_threshold
  exact le_max_right _ _

/-- `max_distance` returns normally, within the physical bounds, whenever the
threshold and the attenuation coefficient are nonzero. -/
theorem max_distance_ok (Icur Ith c : ℝ) (hI : Ith ≠ 0) (hc : c ≠ 0) :
    ∃ d, max_distance Icur Ith c = .ok d ∧ 0 ≤ d ∧ d ≤ 10000 := by
  unfold max_distance
  by_cases hle : Icur ≤ Ith
  · exact ⟨0, by rw [if_pos hle], le_refl 0, by norm_num⟩
  · rw [if_neg hle, pydiv_ok _ _ hc, pydiv_ok _ _ hI]
    refine ⟨_, rfl, ?_, ?_⟩
    · exact le_min (le_max_right _ _) (by norm_num)
    · exact min_le_right _ _

/-- One Monte Carlo sample returns normally for nonzero Kelvin temperature
and nonnegative wind speed. -/
theorem uncertainty_sample_ok (sp : Params7) (t T Uw P Hs amb : ℝ)
    (s : String) (hT : T + 273.15 ≠ 0) (hw : 0 ≤ Uw) :
    ∃ v, uncertainty_sample sp t T Uw P Hs amb s = .ok v := by
  have hz : (8.314 : ℝ) * (T + 273.15) ≠ 0 := mul_ne_zero (by norm_num) hT
  have hb : Uw ≠ 0 ∨ 0 ≤ defaultParams.beta :=
    Or.inr (by rw [show defaultParams.beta = 1.2 from rfl]; norm_num)
  unfold uncertainty_sample
  rw [pydiv_ok _ _ hz, py_pow_ok _ _ hw hb]
  dsimp only
  split
  · exact ⟨_, rfl⟩
  · exact ⟨_, rfl⟩

/-- The error-propagating loop returns normally when every element does. -/
theorem exceptMap_ok {α β : Type} (f : α → Except String β) :
    ∀ l : List α, (∀ a ∈ l, ∃ b, f a = .ok b) →
      ∃ bs, exceptMap f l = .ok bs
  | [], _ => ⟨[], rfl⟩
  | a :: l, h => by
      obtain ⟨b, hb⟩ := h a (List.mem_cons_self a l)
      obtain ⟨bs, hbs⟩ :=
        exceptMap_ok f l (fun x hx => h x (List.mem_cons_of_mem a hx))
      exact ⟨b :: bs, by simp only [exceptMap]; rw [hb, hbs]⟩

/-- `_uncertainty_analysis` returns normally for nonzero Kelvin temperature
and nonnegative wind speed. -/
theorem uncertainty_analysis_ok (samples : List Params7) (t T Uw P Hs amb : ℝ)
    (s : String) (hT : T + 273.15 ≠ 0) (hw : 0 ≤ Uw) :
    ∃ ci, uncertainty_analysis samples t T Uw P Hs amb s = .ok ci := by
  obtain ⟨ds, hds⟩ := exceptMap_ok
    (fun sp => uncertainty_sample sp t T Uw P Hs amb s) samples
    (fun sp _ => uncertainty_sample_ok sp t T Uw P Hs amb s hT hw)
  exact ⟨_, by unfold uncertainty_analysis; rw [hds]⟩

/-- `predict` returns normally on every input with nonzero Kelvin temperature
and nonnegative wind speed (with a nonnegative wind exponent when the wind is
zero): all its divisions are protected. -/
theorem predict_ok (p : ModelParameters) (samples : List Params7)
    (t T Uw P Hs amb : ℝ) (s : String) (hT : T + 273.15 ≠ 0) (hw : 0 ≤ Uw)
    (hb : Uw ≠ 0 ∨ 0 ≤ p.beta) :
    ∃ r, predict p samples t T Uw P Hs amb s = .ok r := by
  have h1 := light_decay_ok p t T hT
  have h2 := environmental_attenuation_ok p Uw P Hs hw hb
  have hth : detection_threshold p amb s ≠ 0 :=
    ne_of_gt (lt_of_lt_of_le (by norm_num) (detection_threshold_ge p amb s))
  have hcne : attenuation_value p Uw P Hs ≠ 0 :=
    ne_of_gt (lt_of_lt_of_le (by norm_num) (attenuation_value_ge p Uw P Hs))
  obtain ⟨d, hd, _, _⟩ := max_distance_ok (light_decay_value p t T)
    (detection_threshold p amb s) (attenuation_value p Uw P Hs) hth hcne
  obtain ⟨ci, hci⟩ := uncertainty_analysis_ok samples t T Uw P Hs amb s hT hw
  unfold predict
  rw [h1, h2]
  dsimp only
  rw [hd, hci]
  exact ⟨_, rfl⟩

/-- C1: for every current intensity `I`, threshold `I_th > 0` and attenuation
`c > 0`, `max_distance` returns 0 whenever `I ≤ I_th` (including equality),
otherwise returns `(1/c)·ln(I/I_th)` clamped to `[0, 10000]`, and in all
cases the returned distance lies in `[0, 10000]`. -/
theorem max_distance_spec (I Ith c : ℝ) (hIth : 0 < Ith) (hc : 0 < c) :
    (I ≤ Ith → max_distance I Ith c = .ok 0) ∧
    (Ith < I →
      max_distance I Ith c = .ok (np_clip (1 / c * Real.log (I / Ith)) 0 10000)) ∧
    ∃ d, max_distance I Ith c = .ok d ∧ 0 ≤ d ∧ d ≤ 10000 := by
  refine ⟨fun h => by unfold max_distance; rw [if_pos h], fun h => ?_,
    max_distance_ok I Ith c (ne_of_gt hIth) (ne_of_gt hc)⟩
  unfold max_distance
  rw [if_neg (not_le.mpr h), pydiv_ok _ _ (ne_of_gt hc),
    pydiv_ok _ _ (ne_of_gt hIth)]

/-- Witness for C1 at `I = 2`, `I_th = 1`, `c = 2`. -/
theorem max_distance_spec_witness :
    (0 : ℝ) < 1 ∧ (0 : ℝ) < 2 ∧
    ((2 : ℝ) ≤ 1 → max_distance 2 1 2 = .ok 0) ∧
    ((1 : ℝ) < 2 →
      max_distance 2 1 2 = .ok (np_clip (1 / 2 * Real.log (2 / 1)) 0 10000)) ∧
    (∃ d, max_distance 2 1 2 = .ok d ∧ 0 ≤ d ∧ d ≤ 10000) := by
  have h := max_distance_spec 2 1 2 (by norm_num) (by norm_num)
  exact ⟨by norm_num, by norm_num, h.1, h.2.1, h.2.2⟩

/-- C6: for fixed water temperature and `A > 0`, `I0 > 0`, the intensity
computed by `light_decay` is monotonically non-increasing in the time since
activation: whenever both calls return, the later time gives a value that is
at most the earlier one. -/
theorem light_decay_antitone (p : ModelParameters) (T t1 t2 v1 v2 : ℝ)
    (hA : 0 < p.A) (hI0 : 0 < p.I0) (ht1 : 0 ≤ t1) (ht : t1 < t2)
    (h1 : light_decay p t1 T = .ok v1) (h2 : light_decay p t2 T = .ok v2) :
    v2 ≤ v1 := by
  by_cases hz : T + 273.15 = 0
  · rw [light_decay, pydiv] at h1
    rw [if_pos (by rw [hz, mul_zero])] at h1
    exact absurd h1 (by simp)
  · rw [light_decay_ok p t1 T hz] at h1
    rw [light_decay_ok p t2 T hz] at h2
    simp only [Except.ok.injEq] at h1 h2
    subst h1
    subst h2
    unfold light_decay_value
    have hr : 0 < p.A * Real.exp ((-p.Ea) / (Rgas * (T + 273.15))) :=
      mul_pos hA (Real.exp_pos _)
    refine max_le_max ?_ (le_refl 0)
    refine mul_le_mul_of_nonneg_left ?_ (le_of_lt hI0)
    refine Real.exp_le_exp.mpr ?_
    nlinarith [hr]

/-- Witness for C6 at the default parameters, `T = 20`, times 0 and 5. -/
theorem light_decay_antitone_witness :
    light_decay defaultParams 0 20 = .ok (light_decay_value defaultParams 0 20) ∧
    light_decay defaultParams 5 20 = .ok (light_decay_value defaultParams 5 20) ∧
    light_decay_value defaultParams 5 20 ≤ light_decay_value defaultParams 0 20 := by
  have h1 := light_decay_ok defaultParams 0 20 (by norm_num)
  have h2 := light_decay_ok defaultParams 5 20 (by norm_num)
  exact ⟨h1, h2, light_decay_antitone defaultParams 20 0 5 _ _
    (by rw [show defaultParams.A = 0.015 from rfl]; norm_num)
    (by rw [show defaultParams.I0 = 10.0 from rfl]; norm_num)
    le_rfl (by norm_num) h1 h2⟩

/-- C7: for every wind speed `≥ 0`, precipitation `≥ 0` and wave height `≥ 0`
(with the nonnegative wind exponent), `environmental_attenuation` returns a
coefficient of at least `0.001`, hence nonzero — so the division by it in the
subsequent `max_distance` inversion is never a division by zero. -/
theorem environmental_attenuation_min (p : ModelParameters) (Uw P Hs : ℝ)
    (hw : 0 ≤ Uw) (hP : 0 ≤ P) (hH : 0 ≤ Hs) (hb : 0 ≤ p.beta) :
    environmental_attenuation p Uw P Hs = .ok (attenuation_value p Uw P Hs) ∧
    0.001 ≤ attenuation_value p Uw P Hs ∧ attenuation_value p Uw P Hs ≠ 0 :=
  ⟨environmental_attenuation_ok p Uw P Hs hw (Or.inr hb),
    attenuation_value_ge p Uw P Hs,
    ne_of_gt (lt_of_lt_of_le (by norm_num) (attenuation_value_ge p Uw P Hs))⟩

/-- Witness for C7 at the default parameters, wind 5 m/s, precipitation
2 mm/hr, waves 1 m. -/
theorem environmental_attenuation_min_witness :
    (0 : ℝ) ≤ 5 ∧ (0 : ℝ) ≤ 2 ∧ (0 : ℝ) ≤ 1 ∧ (0 : ℝ) ≤ defaultParams.beta ∧
    environmental_attenuation defaultParams 5 2 1 =
      .ok (attenuation_value defaultParams 5 2 1) ∧
    0.001 ≤ attenuation_value defaultParams 5 2 1 ∧
    attenuation_value defaultParams 5 2 1 ≠ 0 := by
  have hb : (0 : ℝ) ≤ defaultParams.beta := by
    rw [show defaultParams.beta = 1.2 from rfl]; norm_num
  have h := environmental_attenuation_min defaultParams 5 2 1 (by norm_num)
    (by norm_num) (by norm_num) hb
  exact ⟨by norm_num, by norm_num, by norm_num, hb, h.1, h.2.1, h.2.2⟩

/-- C8: for ambient light in `[0.0001, 0.1]` and the default constants, the
detection threshold is at least `0.0001`; for identical ambient light the
thresholds are strictly ordered nvg < human < drone; any unknown sensor type
gives the drone threshold. -/
theorem detection_threshold_spec (a : ℝ) (h1 : 0.0001 ≤ a) (h2 : a ≤ 0.1) :
    (∀ s, 0.0001 ≤ detection_threshold defaultParams a s) ∧
    detection_threshold defaultParams a "nvg" <
      detection_threshold defaultParams a "human" ∧
    detection_threshold defaultParams a "human" <
      detection_threshold defaultParams a "drone" ∧
    ∀ s, s ≠ "human" → s ≠ "drone" → s ≠ "nvg" →
      detection_threshold defaultParams a s =
        detection_threshold defaultParams a "drone" := by
  have e1 : detection_threshold defaultParams a "nvg" =
      max (0.0005 + 1.5 * a) 0.0001 := rfl
  have e2 : detection_threshold defaultParams a "human" =
      max (0.001 + 1.5 * a) 0.0001 := rfl
  have e3 : detection_threshold defaultParams a "drone" =
      max (0.005 + 1.5 * a) 0.0001 := rfl
  have m1 : detection_threshold defaultParams a "nvg" = 0.0005 + 1.5 * a := by
    rw [e1]; exact max_eq_left (by linarith)
  have m2 : detection_threshold defaultParams a "human" = 0.001 + 1.5 * a := by
    rw [e2]; exact max_eq_left (by linarith)
  have m3 : detection_threshold defaultParams a "drone" = 0.005 + 1.5 * a := by
    rw [e3]; exact max_eq_left (by linarith)
  refine ⟨fun s => detection_threshold_ge defaultParams a s, ?_, ?_, ?_⟩
  · rw [m1, m2]; linarith
  · rw [m2, m3]; linarith
  · intro s hs1 hs2 hs3
    unfold detection_threshold
    rw [show kGet defaultParams.kSensor s = defaultParams.kSensor.drone from by
      simp [kGet, hs1, hs2, hs3]]
    rfl

/-- Witness for C8 at ambient light `0.001` and the unknown sensor type
"satellite". -/
theorem detection_threshold_spec_witness :
    (0.0001 : ℝ) ≤ 0.001 ∧ (0.001 : ℝ) ≤ 0.1 ∧
    0.0001 ≤ detection_threshold defaultParams 0.001 "satellite" ∧
    detection_threshold defaultParams 0.001 "nvg" <
      detection_threshold defaultParams 0.001 "human" ∧
    detection_threshold defaultParams 0.001 "human" <
      detection_threshold defaultParams 0.001 "drone" ∧
    detection_threshold defaultParams 0.001 "satellite" =
      detection_threshold defaultParams 0.001 "drone" := by
  have h := detection_threshold_spec 0.001 (by norm_num) (by norm_num)
  exact ⟨by norm_num, by norm_num, h.1 "satellite", h.2.1, h.2.2.1,
    h.2.2.2 "satellite" (by decide) (by decide) (by decide)⟩

/-- C2 counterexample: `predict` has no internal exception handler, so the
`ZeroDivisionError` raised by `light_decay`'s division at the finite numeric
input `water_temp = -273.15` propagates to the caller instead of being
converted into a structured zero/placeholder result. -/
theorem predict_raises_on_zero_kelvin :
    predict defaultParams [] 45 (-273.15) 5.2 2.4 1.2 0.002 "drone" =
      .error "ZeroDivisionError" := by
  have hz : Rgas * ((-273.15 : ℝ) + 273.15) = 0 := by norm_num [Rgas]
  unfold predict light_decay pydiv
  rw [if_pos hz]

/-- C2 (amended): `predict` raises no exception on any input whose Kelvin
temperature is nonzero and whose wind speed is nonnegative (all divisions on
that domain are protected by the floors); it contains no internal
`try`/`except`, so outside that domain the exception propagates to the
caller rather than being converted into a placeholder result. -/
theorem predict_total (p : ModelParameters) (samples : List Params7)
    (t T Uw P Hs amb : ℝ) (s : String) (hT : T + 273.15 ≠ 0) (hw : 0 ≤ Uw)
    (hb : Uw ≠ 0 ∨ 0 ≤ p.beta) :
    ∃ r, predict p samples t T Uw P Hs amb s = .ok r :=
  predict_ok p samples t T Uw P Hs amb s hT hw hb

/-- Witness for C2's amended theorem at the spec's scenario-1 conditions. -/
theorem predict_total_witness :
    (8.5 : ℝ) + 273.15 ≠ 0 ∧ (0 : ℝ) ≤ 5.2 ∧
    ∃ r, predict defaultParams [] 45 8.5 5.2 2.4 1.2 0.002 "drone" = .ok r :=
  ⟨by norm_num, by norm_num,
    predict_total defaultParams [] 45 8.5 5.2 2.4 1.2 0.002 "drone"
      (by norm_num) (by norm_num) (Or.inl (by norm_num))⟩

/-- C9: a call to `predict` leaves the model state — the `ModelParameters`
object, the calibration history and the validation buffer — unchanged: the
transcribed method body performs no assignment to `self` (the Monte Carlo
sampler mutates only its per-sample local `ModelParameters()` objects). -/
theorem predict_preserves_state (m : Model) (samples : List Params7)
    (t T Uw P Hs amb : ℝ) (s : String) :
    (model_predict m samples t T Uw P Hs amb s).2 = m ∧
    (model_predict m samples t T Uw P Hs amb s).2.params = m.params ∧
    (model_predict m samples t T Uw P Hs amb s).2.calibration_history =
      m.calibration_history ∧
    (model_predict m samples t T Uw P Hs amb s).2.validation_data =
      m.validation_data :=
  ⟨rfl, rfl, rfl, rfl⟩

/-- At equal intensity and threshold with distance 0, the flag list misses
"Low brightness" (strict comparison) but contains "Very short range". -/
theorem flags_at_equal_threshold (I c : ℝ) :
    "Low brightness" ∉ generate_failure_flags I I c 0 ∧
    "Very short range" ∈ generate_failure_flags I I c 0 := by
  unfold generate_failure_flags
  rw [if_neg (lt_irrefl I), if_pos (show (0 : ℝ) < 50 by norm_num)]
  by_cases hc5 : c > 0.05 <;> by_cases hI1 : I < 0.1 <;>
    simp [hc5, hI1] <;> decide

/-- C10: when the computed current intensity exactly equals the detection
threshold, `predict` returns distance 0 (non-strict comparison in
`max_distance`) while the failure flags do not contain "Low brightness"
(strict comparison in `_generate_failure_flags`) and do contain
"Very short range" (0 < 50). -/
theorem predict_flags_at_threshold (p : ModelParameters)
    (samples : List Params7) (t T Uw P Hs amb : ℝ) (s : String) (I : ℝ)
    (hT : T + 273.15 ≠ 0) (hw : 0 ≤ Uw) (hb : Uw ≠ 0 ∨ 0 ≤ p.beta)
    (hI : light_decay p t T = .ok I)
    (heq : detection_threshold p amb s = I) :
    ∃ r, predict p samples t T Uw P Hs amb s = .ok r ∧ r.distance = 0 ∧
      "Low brightness" ∉ r.failure_flags ∧
      "Very short range" ∈ r.failure_flags := by
  have h2 := environmental_attenuation_ok p Uw P Hs hw hb
  obtain ⟨ci, hci⟩ := uncertainty_analysis_ok samples t T Uw P Hs amb s hT hw
  have hmd : max_distance I I (attenuation_value p Uw P Hs) = .ok 0 := by
    unfold max_distance
    rw [if_pos (le_refl I)]
  unfold predict
  rw [hI, h2]
  dsimp only
  rw [heq, hmd, hci]
  exact ⟨_, rfl, rfl, (flags_at_equal_threshold I _).1,
    (flags_at_equal_threshold I _).2⟩

/-- Witness for C10: with default parameters, `t = 0`, `T = 20` the current
intensity is exactly 10, and ambient light `1999/300` makes the drone
threshold exactly 10 as well. -/
theorem predict_flags_at_threshold_witness :
    light_decay defaultParams 0 20 = .ok 10 ∧
    detection_threshold defaultParams (1999 / 300) "drone" = 10 ∧
    ∃ r, predict defaultParams [] 0 20 0 0 0 (1999 / 300) "drone" = .ok r ∧
      r.distance = 0 ∧ "Low brightness" ∉ r.failure_flags ∧
      "Very short range" ∈ r.failure_flags := by
  have hval : light_decay_value defaultParams 0 20 = 10 := by
    unfold light_decay_value
    rw [mul_zero, Real.exp_zero, mul_one,
      show defaultParams.I0 = (10.0 : ℝ) from rfl, max_eq_left (by norm_num)]
    norm_num
  have hI : light_decay defaultParams 0 20 = .ok 10 := by
    rw [light_decay_ok defaultParams 0 20 (by norm_num), hval]
  have heq : detection_threshold defaultParams (1999 / 300) "drone" = 10 := by
    rw [show detection_threshold defaultParams (1999 / 300) "drone" =
      max (0.005 + 1.5 * (1999 / 300)) 0.0001 from rfl,
      max_eq_left (by norm_num)]
    norm_num
  exact ⟨hI, heq, predict_flags_at_threshold defaultParams [] 0 20 0 0 0
    (1999 / 300) "drone" 10 (by norm_num) le_rfl
    (Or.inr (by rw [show defaultParams.beta = 1.2 from rfl]; norm_num))
    hI heq⟩

/-- Installing the seven fields twice is the same as installing the second
vector once. -/
theorem set_params_set_params (p : ModelParameters) (v w : Params7) :
    set_params (set_params p v) w = set_params p w := rfl

/-- The objective function's only state effect on a normal return is the
installation of the candidate vector. -/
theorem objective_state (rows : List FieldRow) (rng : List Params7)
    (v : Params7) (m : Model) (fx : ℝ) (m' : Model)
    (h : objective_function rows rng v m = .ok (fx, m')) :
    m' = { m with params := set_params m.params v } := by
  unfold objective_function at h
  dsimp only at h
  split at h
  · exact absurd h (by simp)
  · split at h
    · exact absurd h (by simp)
    · simp only [Except.ok.injEq, Prod.mk.injEq] at h
      exact h.2.symm

/-- The objective function returns normally on a non-empty valid table,
installing exactly the candidate vector. -/
theorem objective_ok (rows : List FieldRow) (rng : List Params7)
    (v : Params7) (m : Model) (hne : rows ≠ [])
    (hv : ∀ r ∈ rows, validRow r) (hb : 0 ≤ m.params.beta) :
    ∃ fx, objective_function rows rng v m =
      .ok (fx, { m with params := set_params m.params v }) := by
  unfold objective_function
  dsimp only
  obtain ⟨preds, hpreds⟩ := exceptMap_ok
    (fun row =>
      match predict (set_params m.params v) rng row.activation_time
          row.water_temp row.wind_speed row.precipitation row.wave_height
          row.ambient_light row.sensor_type with
      | .error e => .error e
      | .ok r => .ok r.distance) rows
    (fun row hrow => by
      obtain ⟨hwt, hws⟩ := hv row hrow
      obtain ⟨r, hr⟩ := predict_ok (set_params m.params v) rng
        row.activation_time row.water_temp row.wind_speed row.precipitation
        row.wave_height row.ambient_light row.sensor_type hwt hws
        (Or.inr hb)
      exact ⟨r.distance, by dsimp only; rw [hr]⟩)
  rw [hpreds]
  have hlen : ¬ ((rows.map (fun row => row.actual_distance)).length = 0) := by
    rw [List.length_map]
    exact fun hl => hne (List.length_eq_zero.mp hl)
  dsimp only
  unfold mean_absolute_error
  split
  · rename_i e heq
    rw [if_neg hlen] at heq
    exact absurd heq (by simp)
  · exact ⟨_, rfl⟩

/-- State invariant of the trial-evaluation loop: starting from a state whose
parameters hold the last evaluated iterate, a normal return holds the final
iterate. -/
theorem run_trials_state (rows : List FieldRow) (rng : List Params7) :
    ∀ (ts : List Params7) (x : Params7) (fx : ℝ) (m0 : Model) (xf : Params7)
      (fxf : ℝ) (mf : Model),
      run_trials (objective_function rows rng) ts x fx
          { m0 with params := set_params m0.params x } = .ok ((xf, fxf), mf) →
      mf = { m0 with params := set_params m0.params xf }
  | [], x, fx, m0, xf, fxf, mf, h => by
      simp only [run_trials, Except.ok.injEq, Prod.mk.injEq] at h
      obtain ⟨⟨hx, _⟩, hm⟩ := h
      rw [← hm, ← hx]
  | t :: ts, x, fx, m0, xf, fxf, mf, h => by
      simp only [run_trials] at h
      split at h
      · exact absurd h (by simp)
      · rename_i ft m1 heq
        have hm1 : m1 = { m0 with params := set_params m0.params t } :=
          objective_state rows rng t _ ft m1 heq
        rw [hm1] at h
        exact run_trials_state rows rng ts t ft m0 xf fxf mf h

/-- The trial-evaluation loop returns normally on a non-empty valid table. -/
theorem run_trials_ok (rows : List FieldRow) (rng : List Params7)
    (hne : rows ≠ []) (hv : ∀ r ∈ rows, validRow r) :
    ∀ (ts : List Params7) (x : Params7) (fx : ℝ) (m0 : Model),
      0 ≤ m0.params.beta →
      ∃ xf fxf, run_trials (objective_function rows rng) ts x fx
          { m0 with params := set_params m0.params x } =
        .ok ((xf, fxf), { m0 with params := set_params m0.params xf })
  | [], x, fx, m0, _ => ⟨x, fx, rfl⟩
  | t :: ts, x, fx, m0, hb => by
      obtain ⟨ft, hft⟩ := objective_ok rows rng t
        { m0 with params := set_params m0.params x } hne hv hb
      obtain ⟨xf, fxf, hrec⟩ := run_trials_ok rows rng hne hv ts t ft m0 hb
      refine ⟨xf, fxf, ?_⟩
      simp only [run_trials]
      rw [hft]
      exact hrec

/-- A normal return of the abstract optimizer carries the given success flag
and installs exactly the final iterate into the state. -/
theorem scipy_minimize_state (rows : List FieldRow) (rng : List Params7)
    (x0 : Params7) (ts : List Params7) (succ : Bool) (m : Model)
    (x : Params7) (fx : ℝ) (s' : Bool) (m1 : Model)
    (h : scipy_minimize (objective_function rows rng) x0 ts succ m =
      .ok ((x, fx, s'), m1)) :
    s' = succ ∧ m1 = { m with params := set_params m.params x } := by
  unfold scipy_minimize at h
  split at h
  · exact absurd h (by simp)
  · rename_i fx0 m0 heq
    have hm0 : m0 = { m with params := set_params m.params x0 } :=
      objective_state rows rng x0 m fx0 m0 heq
    rw [hm0] at h
    split at h
    · exact absurd h (by simp)
    · rename_i xf fxf mf heq2
      have hmf := run_trials_state rows rng ts x0 fx0 m xf fxf mf heq2
      simp only [Except.ok.injEq, Prod.mk.injEq] at h
      obtain ⟨⟨hx, _, hs⟩, hm⟩ := h
      refine ⟨hs.symm, ?_⟩
      rw [← hm, hmf, hx]

/-- `calibrate_parameters` returns normally on a non-empty valid table,
installing the final iterate and appending exactly one history record. -/
theorem calibrate_parameters_ok (m : Model) (rows : List FieldRow)
    (trials : List Params7) (succ : Bool) (rng : List Params7)
    (hne : rows ≠ []) (hv : ∀ r ∈ rows, validRow r)
    (hb : 0 ≤ m.params.beta) :
    ∃ x fval, calibrate_parameters m rows trials succ rng =
      .ok (x, { m with
        params := set_params m.params x
        calibration_history := m.calibration_history ++
          [⟨m.calibration_history.length + 1, x, fval, succ⟩] }) := by
  obtain ⟨fx0, h0⟩ := objective_ok rows rng
    ⟨m.params.I0, m.params.A, m.params.Ea, m.params.alpha1, m.params.alpha2,
      m.params.alpha3, m.params.gamma⟩ m hne hv hb
  obtain ⟨xf, fxf, hrun⟩ := run_trials_ok rows rng hne hv trials
    ⟨m.params.I0, m.params.A, m.params.Ea, m.params.alpha1, m.params.alpha2,
      m.params.alpha3, m.params.gamma⟩ fx0 m hb
  refine ⟨xf, fxf, ?_⟩
  unfold calibrate_parameters scipy_minimize
  dsimp only
  rw [h0]
  dsimp only
  rw [hrun]
  rfl

/-- C3 counterexample: on zero field rows `calibrate_parameters` raises, but
the error is sklearn's generic empty-input `ValueError` thrown inside the
optimizer's very first objective evaluation — there is no designated
empty-input check before the optimization attempt.  The carried state equals
the input state: the parameter values, history and buffer are unchanged. -/
theorem calibrate_parameters_empty_counterexample :
    calibrate_parameters defaultModel [] [] true [] =
      .error (empty_data_error, defaultModel) := rfl

/-- C3 (amended): on zero field rows `calibrate_parameters` raises an error —
the generic `ValueError` from `mean_absolute_error`, raised during the first
objective evaluation inside the optimizer rather than a designated
empty-input error before any optimization attempt — and the stored
`ModelParameters` values, the calibration history and the validation buffer
are left unchanged (the carried state is the input state itself). -/
theorem calibrate_parameters_empty (m : Model) (trials : List Params7)
    (succ : Bool) (rng : List Params7) :
    calibrate_parameters m [] trials succ rng =
      .error (empty_data_error, m) := rfl

/-- C4 counterexample: the history dict appended by `calibrate_parameters`
(source lines 394-399) has exactly the keys `iteration`, `parameters`,
`error`, `success` — there is no timestamp key. -/
theorem calibration_record_no_timestamp :
    "timestamp" ∉ calibration_record_keys := by decide

/-- C4 (amended): whenever `calibrate_parameters` returns on a non-empty
table, the seven calibrated parameters equal the optimizer's final iterate —
even when `success = false` — and exactly one record holding the iteration
index, the optimized-parameter snapshot, the final MAE and the success flag
(but no timestamp) is appended to the calibration history; the validation
buffer is untouched. -/
theorem calibrate_parameters_installs_final_iterate (m : Model)
    (rows : List FieldRow) (trials : List Params7) (succ : Bool)
    (rng : List Params7) (x : Params7) (m' : Model) (hne : rows ≠ [])
    (hok : calibrate_parameters m rows trials succ rng = .ok (x, m')) :
    m'.params.I0 = x.I0 ∧ m'.params.A = x.A ∧ m'.params.Ea = x.Ea ∧
    m'.params.alpha1 = x.alpha1 ∧ m'.params.alpha2 = x.alpha2 ∧
    m'.params.alpha3 = x.alpha3 ∧ m'.params.gamma = x.gamma ∧
    (∃ fval, m'.calibration_history = m.calibration_history ++
      [⟨m.calibration_history.length + 1, x, fval, succ⟩]) ∧
    m'.validation_data = m.validation_data := by
  unfold calibrate_parameters at hok
  dsimp only at hok
  split at hok
  · exact absurd hok (by simp)
  · rename_i x1 fval s1 m1 heq
    obtain ⟨hs1, hm1⟩ := scipy_minimize_state rows rng _ trials succ m x1
      fval s1 m1 heq
    simp only [Except.ok.injEq, Prod.mk.injEq] at hok
    obtain ⟨hx1, hm'⟩ := hok
    subst hx1
    subst hs1
    rw [hm1] at hm'
    rw [← hm']
    exact ⟨rfl, rfl, rfl, rfl, rfl, rfl, rfl, ⟨fval, rfl⟩, rfl⟩

/-- Witness for C4 at one valid row, no extra trial points and
`success = false`. -/
theorem calibrate_parameters_installs_witness :
    ([exampleRow] : List FieldRow) ≠ [] ∧
    ∃ x m', calibrate_parameters defaultModel [exampleRow] [] false [] =
        .ok (x, m') ∧
      (m'.params.I0 = x.I0 ∧ m'.params.A = x.A ∧ m'.params.Ea = x.Ea ∧
      m'.params.alpha1 = x.alpha1 ∧ m'.params.alpha2 = x.alpha2 ∧
      m'.params.alpha3 = x.alpha3 ∧ m'.params.gamma = x.gamma ∧
      (∃ fval, m'.calibration_history = defaultModel.calibration_history ++
        [⟨defaultModel.calibration_history.length + 1, x, fval, false⟩]) ∧
      m'.validation_data = defaultModel.validation_data) := by
  have hv : ∀ r ∈ ([exampleRow] : List FieldRow), validRow r := by
    intro r hr
    rw [List.mem_singleton.mp hr]
    exact ⟨by show (8.5 : ℝ) + 273.15 ≠ 0; norm_num,
      by show (0 : ℝ) ≤ 5.2; norm_num⟩
  obtain ⟨x, fval, hcal⟩ := calibrate_parameters_ok defaultModel [exampleRow]
    [] false [] (by simp) hv (by show (0 : ℝ) ≤ 1.2; norm_num)
  exact ⟨by simp, x, _, hcal,
    calibrate_parameters_installs_final_iterate defaultModel [exampleRow] []
      false [] x _ (by simp) hcal⟩

/-- Adding observations while the buffer stays below 10 entries only appends
to the buffer: no retraining is triggered. -/
theorem add_many_small (trials : List Params7) (succ : Bool)
    (rng : List Params7) :
    ∀ (l : List FieldRow) (m : Model),
      m.validation_data.length + l.length ≤ 9 →
      add_many trials succ rng m l =
        .ok { m with validation_data := m.validation_data ++ l }
  | [], m, _ => by
      simp only [add_many]
      rw [List.append_nil]
  | r :: rs, m, h => by
      simp only [add_many, add_validation_data]
      dsimp only
      rw [List.length_cons] at h
      have hlt : ¬ ((m.validation_data ++ [r]).length ≥ 10) := by
        rw [List.length_append]
        simp only [List.length_singleton]
        omega
      rw [if_neg hlt]
      dsimp only
      rw [add_many_small trials succ rng rs
        { m with validation_data := m.validation_data ++ [r] } (by
          dsimp only
          rw [List.length_append]
          simp only [List.length_singleton]
          omega)]
      rw [List.append_assoc, List.singleton_append]

/-- Running `add_many` over an appended list splits into two runs. -/
theorem add_many_append (trials : List Params7) (succ : Bool)
    (rng : List Params7) :
    ∀ (l1 l2 : List FieldRow) (m : Model),
      add_many trials succ rng m (l1 ++ l2) =
        match add_many trials succ rng m l1 with
        | .error em => .error em
        | .ok m1 => add_many trials succ rng m1 l2
  | [], l2, m => rfl
  | r :: rs, l2, m => by
      simp only [List.cons_append, add_many]
      split
    <;> rename_i hsplit
      · rfl
      · exact add_many_append trials succ rng rs l2 _

/-- C5: starting from an empty validation buffer and 10 valid observations,
the first nine `add_validation_data` calls only grow the buffer (no fit), and
the tenth triggers exactly one automatic fit — appending exactly one
calibration record — and leaves the buffer empty. -/
theorem add_observation_ten (m0 : Model) (rows : List FieldRow)
    (trials : List Params7) (succ : Bool) (rng : List Params7)
    (h10 : rows.length = 10) (hv : ∀ r ∈ rows, validRow r)
    (hb : 0 ≤ m0.params.beta) (he : m0.validation_data = []) :
    (∀ k, k < 10 → add_many trials succ rng m0 (rows.take k) =
      .ok { m0 with validation_data := rows.take k }) ∧
    ∃ m', add_many trials succ rng m0 rows = .ok m' ∧
      m'.validation_data = [] ∧
      ∃ rec, m'.calibration_history = m0.calibration_history ++ [rec] := by
  have hpart1 : ∀ k, k < 10 → add_many trials succ rng m0 (rows.take k) =
      .ok { m0 with validation_data := rows.take k } := by
    intro k hk
    rw [add_many_small trials succ rng (rows.take k) m0 (by
      rw [he, List.length_take, h10]
      simp only [List.length_nil]
      have hmin : k ⊓ 10 ≤ k := min_le_left k 10
      omega)]
    rw [he, List.nil_append]
  refine ⟨hpart1, ?_⟩
  obtain ⟨r10, hdrop⟩ : ∃ r, rows.drop 9 = [r] :=
    List.length_eq_one.mp (by rw [List.length_drop, h10])
  have hsplit : rows = rows.take 9 ++ [r10] := by
    rw [← hdrop, List.take_append_drop]
  have hlen9 : (rows.take 9).length = 9 := by
    rw [List.length_take, h10]
    exact min_eq_left (by norm_num)
  have hv2 : ∀ r ∈ rows.take 9 ++ [r10], validRow r := by
    intro r hr
    rcases List.mem_append.mp hr with hmem | hmem
    · exact hv r (List.take_subset 9 rows hmem)
    · rw [List.mem_singleton.mp hmem]
      exact hv r10 (List.drop_subset 9 rows (by
        rw [hdrop]
        exact List.mem_singleton.mpr rfl))
  obtain ⟨x, fval, hcal⟩ := calibrate_parameters_ok
    { m0 with validation_data := rows.take 9 ++ [r10] }
    (rows.take 9 ++ [r10]) trials succ rng (by simp) hv2 hb
  rw [hsplit, add_many_append trials succ rng (rows.take 9) [r10] m0,
    hpart1 9 (by norm_num)]
  simp only [add_many, add_validation_data]
  rw [if_pos (by
    rw [List.length_append, hlen9]
    simp only [List.length_singleton]
    omega : ((rows.take 9 : List FieldRow) ++ [r10]).length ≥ 10)]
  unfold retrain_from_validation_data
  dsimp only
  rw [if_neg (by
    rw [List.length_append, hlen9]
    simp only [List.length_singleton]
    omega : ¬ (((rows.take 9 : List FieldRow) ++ [r10]).length < 10))]
  rw [hcal]
  exact ⟨_, rfl, rfl,
    ⟨⟨m0.calibration_history.length + 1, x, fval, succ⟩, rfl⟩⟩

/-- Witness for C5: ten copies of a valid observation added to a fresh
model. -/
theorem add_observation_ten_witness :
    (List.replicate 10 exampleRow).length = 10 ∧
    add_many [] false [] defaultModel ((List.replicate 10 exampleRow).take 9) =
      .ok { defaultModel with
        validation_data := (List.replicate 10 exampleRow).take 9 } ∧
    ∃ m', add_many [] false [] defaultModel (List.replicate 10 exampleRow) =
        .ok m' ∧
      m'.validation_data = [] ∧
      ∃ rec, m'.calibration_history =
        defaultModel.calibration_history ++ [rec] := by
  have hv : ∀ r ∈ List.replicate 10 exampleRow, validRow r := by
    intro r hr
    rw [List.eq_of_mem_replicate hr]
    exact ⟨by show (8.5 : ℝ) + 273.15 ≠ 0; norm_num,
      by show (0 : ℝ) ≤ 5.2; norm_num⟩
  have h := add_observation_ten defaultModel (List.replicate 10 exampleRow)
    [] false [] (by simp) hv (by show (0 : ℝ) ≤ 1.2; norm_num) rfl
  exact ⟨by simp, h.1 9 (by norm_num), h.2⟩

end

end LuxBio
